import Mathlib

/-!
Verification of the Telinga customer-notification workflow.

The definitions below are a shallow embedding of the Python/Django sources:
`main/manager.py` (CustomerNotificationManager), `main/views.py` (webhook
views and CSV-upload validation), `main/tasks.py` (delivery-status tracker),
`main/signals.py` (the post-save feedback reaction) and `main/models.py`
(the row types and their uniqueness constraints).  External transports
(Twilio, Nylas, Gemini) are passed in as explicit function parameters; the
database is explicit state (lists of rows); Python exceptions are modelled
by explicit error values.
-/

deriving instance DecidableEq for Except

namespace Telinga

/-! ## Python-level primitives -/

/-- Python runtime faults that the translated code can raise. -/
inductive PyError where
  | typeError
  | unboundLocalError
  | integrityError
  | twilioError (msg : String)
  deriving Repr, DecidableEq

/-- Python truthiness of an optional string field: `None` and `""` are falsy. -/
def truthy : Option String → Bool
  | none => false
  | some s => !s.isEmpty

/-- Python `str.replace` on character lists: replace every non-overlapping
occurrence of `pat` left-to-right, without rescanning replaced text.
Structural recursion on a fuel bound (the input length suffices: every
step consumes at least one character; the translated code never calls it
with an empty pattern). -/
def replaceAux (pat rep : List Char) : Nat → List Char → List Char
  | _, [] => []
  | 0, s => s
  | fuel + 1, c :: rest =>
    if pat.isPrefixOf (c :: rest) then
      rep ++ replaceAux pat rep fuel ((c :: rest).drop pat.length)
    else
      c :: replaceAux pat rep fuel rest

/-- Python `str.replace`. -/
def pyReplace (s pat rep : String) : String :=
  String.mk (replaceAux pat.data rep.data s.data.length s.data)

/-- Substring scan: does `pat` occur (as a contiguous run) in the list? -/
def containsAux (pat : List Char) : List Char → Bool
  | [] => pat.isEmpty
  | c :: rest => pat.isPrefixOf (c :: rest) || containsAux pat rest

/-- Python `pat in s` substring test. -/
def pyContains (s pat : String) : Bool :=
  containsAux pat.data s.data

/-! ## Data model (`main/models.py`)

Rows carry the fields the workflow reads.  `Option String` models a nullable
text column (`none` is SQL NULL / Python `None`).  A `Customer` here always
has a campaign template attached (`message` is `customer.message_format.message`);
the dispatch entry point dereferences `customer.message_format` unconditionally,
so only such customers reach the code under study. -/

structure Customer where
  id : Nat
  phone_number : Option String
  email : Option String
  first_name : String
  last_name : Option String
  /-- `customer.message_format.message`: the campaign template text. -/
  message : String
  deriving Repr, DecidableEq

/-- One `MessageStatus` row (the DeliveryRecord). -/
structure MessageStatusRow where
  customer : Nat
  message_sid : String
  status : String
  deriving Repr, DecidableEq

/-- One `Feedback` row. `message` is nullable because the Twilio webhook
stores `request.POST.get("Body")`, which may be absent. -/
structure FeedbackRow where
  customer : Nat
  message : Option String
  source : String
  deriving Repr, DecidableEq

/-- `settings.CSV_REQUIRED_HEADERS` (default value of the env override). -/
def CSV_REQUIRED_HEADERS : List String :=
  ["phone_number", "email", "first_name", "last_name"]

/-- `getattr(customer, header, "")`: the four recognized headers are real
model fields (their value may be `None`); any other name falls back to `""`. -/
def getattrField (c : Customer) : String → Option String
  | "phone_number" => c.phone_number
  | "email" => c.email
  | "first_name" => some c.first_name
  | "last_name" => c.last_name
  | _ => some ""

/-- `f"{\x7b{\x7b{\x7bheader}\x7d}\x7d}\x7d".strip()`: the literal token
`{\x7b` + header + `}\x7d` (strip is a no-op, the braces are not whitespace). -/
def placeholderOf (header : String) : String :=
  "\x7b\x7b" ++ header ++ "\x7d\x7d"

/-! ## Template rendering (`CustomerNotificationManager.parse_message`) -/

/-- The loop body of `parse_message`: for each header in order, if the
placeholder occurs in the partially parsed message, look the field up and
call `str.replace`; Python raises `TypeError` when the replacement value is
`None` (the `getattr` default `""` never applies to a real model field). -/
def parseSteps (c : Customer) : List String → String → Except PyError String
  | [], parsed => .ok parsed
  | header :: rest, parsed =>
    let ph := placeholderOf header
    if pyContains parsed ph then
      match getattrField c header with
      | some v => parseSteps c rest (pyReplace parsed ph v)
      | none => .error .typeError
    else
      parseSteps c rest parsed

/-- `CustomerNotificationManager.parse_message`. -/
def parse_message (message_format : String) (c : Customer) : Except PyError String :=
  parseSteps c CSV_REQUIRED_HEADERS message_format

/-! ## Template-creation validation
(`UploadCustomerView.validate_and_sanitize_message_format`) -/

/-- Python regex `\w` on ASCII input. -/
def isWordChar (c : Char) : Bool := c.isAlphanum || c == '_'

/-- Python regex `\s` on ASCII input. -/
def isSpaceChar (c : Char) : Bool :=
  c == ' ' || c == '\t' || c == '\n' || c == '\r' || c == '\x0b' || c == '\x0c'

/-- Try to match the regex `{\x7b{\x7b\s*\w+\s*}\x7d}\x7d` at the head of the
list; on success return the matched token and the remaining input.  The
character classes of adjacent regex pieces are disjoint, so the greedy scan
equals the backtracking regex here. -/
def matchPlaceholderAt : List Char → Option (List Char × List Char)
  | '\x7b' :: '\x7b' :: rest =>
    let sp1 := rest.takeWhile isSpaceChar
    let r1 := rest.dropWhile isSpaceChar
    let w := r1.takeWhile isWordChar
    let r2 := r1.dropWhile isWordChar
    if w.isEmpty then none
    else
      let sp2 := r2.takeWhile isSpaceChar
      match r2.dropWhile isSpaceChar with
      | '\x7d' :: '\x7d' :: r4 =>
        some ('\x7b' :: '\x7b' :: (sp1 ++ w ++ sp2 ++ ['\x7d', '\x7d']), r4)
      | _ => none
  | _ => none

/-- `re.findall(r"{\x7b{\x7b\s*\w+\s*}\x7d}\x7d", s)`: scan left to right,
collecting non-overlapping matches and resuming after each match.
Structural recursion on a fuel bound; by `matchPlaceholderAt_length` every
step consumes at least one character, so the input length suffices. -/
def findPlaceholdersFuel : Nat → List Char → List (List Char)
  | _, [] => []
  | 0, _ => []
  | fuel + 1, c :: rest =>
    match matchPlaceholderAt (c :: rest) with
    | some (tok, r) => tok :: findPlaceholdersFuel fuel r
    | none => findPlaceholdersFuel fuel rest

def findPlaceholders (l : List Char) : List (List Char) :=
  findPlaceholdersFuel l.length l

/-- `django.template.defaultfilters.escape` (HTML-escapes five characters,
as a simultaneous single-pass translation). -/
def escapeChar (c : Char) : List Char :=
  if c == '&' then "&amp;".data
  else if c == '<' then "&lt;".data
  else if c == '>' then "&gt;".data
  else if c == '"' then "&quot;".data
  else if c == '\x27' then "&#x27;".data
  else [c]

def escapeHtml (s : String) : String :=
  String.mk (s.data.flatMap escapeChar)

/-- `UploadCustomerView.validate_and_sanitize_message_format`, called with
`headers = settings.CSV_REQUIRED_HEADERS` (upload rejects any other header
row): every `{\x7bfield}\x7d`-shaped token must be an allowed placeholder,
and the accepted template is HTML-escaped. -/
def validate_and_sanitize_message_format (message_format : String) : Option String :=
  let allowed := CSV_REQUIRED_HEADERS.map placeholderOf
  let placeholders := findPlaceholders message_format.data
  if placeholders.all (fun p => allowed.contains (String.mk p)) then
    some (escapeHtml message_format)
  else
    none

/-! ## Channel dispatch (`CustomerNotificationManager.send_message`)

The Twilio/Nylas/Gemini clients are passed in as a `Transports` record of
pure functions; `uuid4` is the value `str(uuid.uuid4())` drawn for this
dispatch.  The `MessageStatus` table is the explicit state. -/

/-- External transports and generators used by one dispatch. -/
structure Transports where
  /-- `client.messages.create(body=..., from_=..., to=...)`: returns the
  message SID or raises `TwilioRestException`. -/
  smsSend : String → String → Except String String
  /-- `generate_email_subject` (Gemini with fallback, never raises). -/
  subjectGen : String → String
  /-- `send_email_nylas(to, subject, body)`: internal try/except returns
  `(True, sent_message.id)` or `(False, "")`. -/
  emailSend : String → String → String → Bool × String
  /-- the `str(uuid.uuid4())` value generated for a failed email dispatch. -/
  uuid4 : String

/-- `MessageStatus.objects.create(...)`: inserting a row enforces the
one-to-one constraint on `customer` and the `unique=True` constraint on
`message_sid`; a violation raises `IntegrityError`. -/
def createMessageStatus (row : MessageStatusRow) (db : List MessageStatusRow) :
    Except PyError (List MessageStatusRow) :=
  if db.any (fun r => r.customer == row.customer) then .error .integrityError
  else if db.any (fun r => r.message_sid == row.message_sid) then .error .integrityError
  else .ok (db ++ [row])

/-- Which branch of `send_message` ran. -/
inductive Channel where
  | sms
  | email
  /-- neither contact field is set: the method only logs an error and
  returns (the `NoContactChannel` failure of the spec for this customer). -/
  | noContactChannel
  deriving Repr, DecidableEq

/-- How `send_message` finished: normal return, or a Python exception
propagating out (to the Celery retry wrapper). -/
inductive Outcome where
  | completed
  | raised (e : PyError)
  deriving Repr, DecidableEq

/-- Observable result of one dispatch. -/
structure SendResult where
  db : List MessageStatusRow
  channel : Channel
  /-- the SMS transport (`client.messages.create`) was invoked -/
  smsCalled : Bool
  /-- the email transport (`send_email_nylas`) was invoked -/
  emailCalled : Bool
  outcome : Outcome
  deriving Repr, DecidableEq

/-- `CustomerNotificationManager.send_message`.  Argument evaluation order
follows Python: on the SMS branch `parse_message` is evaluated before
`send_sms` runs; on the email branch the subject is generated first, then
`parse_message`, then the transport call. -/
def send_message (t : Transports) (c : Customer) (db : List MessageStatusRow) :
    SendResult :=
  if truthy c.phone_number then
    match parse_message c.message c with
    | .error e => ⟨db, .sms, false, false, .raised e⟩
    | .ok body =>
      match t.smsSend ("+" ++ (c.phone_number.getD "")) body with
      | .error e => ⟨db, .sms, true, false, .raised (.twilioError e)⟩
      | .ok sid =>
        match createMessageStatus ⟨c.id, sid, "queued"⟩ db with
        | .error e => ⟨db, .sms, true, false, .raised e⟩
        | .ok db' => ⟨db', .sms, true, false, .completed⟩
  else if truthy c.email then
    let subject := t.subjectGen c.message
    match parse_message c.message c with
    | .error e => ⟨db, .email, false, false, .raised e⟩
    | .ok body =>
      match t.emailSend (c.email.getD "") subject body with
      | (true, id) =>
        match createMessageStatus ⟨c.id, id, "delivered"⟩ db with
        | .error e => ⟨db, .email, false, true, .raised e⟩
        | .ok db' => ⟨db', .email, false, true, .completed⟩
      | (false, _) =>
        match createMessageStatus
            ⟨c.id, String.mk (t.uuid4.data.take 34), "failed"⟩ db with
        | .error e => ⟨db, .email, false, true, .raised e⟩
        | .ok db' => ⟨db', .email, false, true, .completed⟩
  else
    ⟨db, .noContactChannel, false, false, .completed⟩

/-! ## Delivery status tracker (`tasks.check_message_delivery_status`)

The task filters the `MessageStatus` table on a non-terminal status set and
loops over the selected rows; `client.messages(sid).fetch()` is the `fetch`
parameter.  Each loop iteration is wrapped in try/except: a failing fetch is
logged and the loop continues.  The embedding traverses the table once,
updating the selected rows in place (the Django queryset is a snapshot of
the selected rows; each is saved back individually), and records which SIDs
were queried at the provider. -/

/-- The status filter set `["queued", "sending", "sent"]`. -/
def nonTerminalStatuses : List String := ["queued", "sending", "sent"]

/-- One run of the tracker: returns the updated table and the provider
queries issued (in table order). -/
def check_message_delivery_status (fetch : String → Except String String) :
    List MessageStatusRow → List MessageStatusRow × List String
  | [] => ([], [])
  | r :: rest =>
    let (rs, qs) := check_message_delivery_status fetch rest
    if nonTerminalStatuses.contains r.status then
      match fetch r.message_sid with
      | .ok s => ({ r with status := s } :: rs, r.message_sid :: qs)
      | .error _ => (r :: rs, r.message_sid :: qs)
    else
      (r :: rs, qs)

/-! ## Inbound SMS webhook (`TwilioWebhookView.post`)

`validator.validate(url, post_vars, signature)` is the Twilio HMAC check,
an external boolean here (`signatureValid`); `debug` is `settings.DEBUG`.
The request carries the optional form fields `From`, `Body`, `Email`. -/

/-- An HTTP-level outcome: a response the view returned, or an uncaught
Python exception (which Django surfaces as HTTP 500). -/
inductive HttpOutcome where
  | resp (status : Nat)
  | raised (e : PyError)
  deriving Repr, DecidableEq

/-- Django `email__iexact` comparison. -/
def iexact (a b : String) : Bool := a.toLower == b.toLower

/-- `TwilioWebhookView.post`.  Faithful to the source: on a failed
signature check (outside debug mode) the handler formats a log line that
reads the local variables `from_number`, `email` and `body` before any of
them has been assigned, so Python raises `UnboundLocalError` and the
`403` response line below it is never reached. -/
def twilioPost (signatureValid debug : Bool)
    (from_number body email : Option String)
    (customers : List Customer) (feedbacks : List FeedbackRow) :
    List FeedbackRow × HttpOutcome :=
  if !signatureValid && !debug then
    (feedbacks, .raised .unboundLocalError)
  else
    let fn : Option String :=
      if truthy from_number then
        match from_number with
        | some s =>
          if pyContains s "+" then some (String.mk (s.data.filter (· ≠ '+')))
          else some s
        | none => none
      else from_number
    let customer : Option Customer :=
      if truthy fn then
        customers.find? (fun c => c.phone_number == some (fn.getD ""))
      else if truthy email then
        customers.find? (fun c =>
          match c.email with
          | some e => iexact e (email.getD "")
          | none => false)
      else none
    match customer with
    | none => (feedbacks, .resp 404)
    | some cust =>
      (feedbacks ++ [⟨cust.id, body, if truthy fn then "sms" else "email"⟩],
       .resp 200)

/-! ## Inbound email-thread-reply webhook (`NylasWebhookView`) -/

/-- The fields of a parsed Nylas webhook event that the handler reads. -/
structure NylasEvent where
  /-- `event.get("type")` -/
  type : Option String
  /-- `event["data"]["object"]["message_id"]` -/
  reply_message_id : String
  /-- `event["data"]["object"]["root_message_id"]` -/
  root_message_id : String
  deriving Repr, DecidableEq

/-- `NylasWebhookView.validate_signature`: HMAC-SHA256 of the raw body
(the `hmacHex` parameter) compared with `hmac.compare_digest`.  When the
`X-Nylas-Signature` header is absent the signature is `None` and
`compare_digest(None, str)` raises `TypeError`. -/
def validate_signature (hmacHex : String → String → String)
    (signature : Option String) (secret_key payload : String) :
    Except PyError Bool :=
  match signature with
  | none => .error .typeError
  | some s => .ok (s == hmacHex secret_key payload)

/-- `NylasWebhookView.handle_thread_replied`:
`MessageStatus.objects.get(message_sid=root_message_id)` retrieves the
matching delivery record (`message_sid` is unique, modelled by `find?`);
`DoesNotExist` is logged and discarded.  `fetchBody` is the Nylas
`messages.find` call returning `message[0].body`; its failure is caught by
the surrounding generic handler.  On success a Feedback row with source
`"email"` is created for the customer of the record.  (The trailing log line
afterwards touches `message.body` on the response wrapper and its
`AttributeError` is swallowed by the same generic handler; the row has
already been created.) -/
def handle_thread_replied (fetchBody : String → Except String String)
    (ev : NylasEvent) (msDb : List MessageStatusRow)
    (feedbacks : List FeedbackRow) : List FeedbackRow :=
  match msDb.find? (fun r => r.message_sid == ev.root_message_id) with
  | none => feedbacks
  | some sent_email =>
    match fetchBody ev.reply_message_id with
    | .error _ => feedbacks
    | .ok bodyText => feedbacks ++ [⟨sent_email.customer, some bodyText, "email"⟩]

/-- `NylasWebhookView.post`: validate the header signature, parse the JSON
body (`parseJson`, `none` modelling `json.JSONDecodeError`), handle only
`"thread.replied"` events, and map exceptions to responses exactly as the
try/except chain does: JSON errors to 400, any other exception to 500. -/
def nylasPost (hmacHex : String → String → String) (secret_key : String)
    (signature : Option String) (rawBody : String)
    (parseJson : String → Option NylasEvent)
    (fetchBody : String → Except String String)
    (msDb : List MessageStatusRow) (feedbacks : List FeedbackRow) :
    List FeedbackRow × HttpOutcome :=
  match validate_signature hmacHex signature secret_key rawBody with
  | .error _ => (feedbacks, .resp 500)
  | .ok false => (feedbacks, .resp 403)
  | .ok true =>
    match parseJson rawBody with
    | none => (feedbacks, .resp 400)
    | some event =>
      if event.type == some "thread.replied" then
        (handle_thread_replied fetchBody event msDb feedbacks, .resp 200)
      else
        (feedbacks, .resp 200)

/-- `NylasWebhookView.get`: the verification handshake echoes the
`challenge` query parameter as plain text. -/
def nylasGet (challenge : Option String) : HttpOutcome × Option String :=
  if truthy challenge then (.resp 200, challenge)
  else (.resp 400, none)

/-! ## Feedback reaction (`signals.analyse_feedback_sentiment`)

Django dispatch semantics: `Model.save()` emits one `post_save` signal
(with the `created` flag), while `QuerySet.update(...)` issues a plain SQL
UPDATE and emits no signal at all.  The machine below processes a queue of
`post_save` events; the storage writes of the handler feed any events they
emit back into the queue, so a write that re-fired the signal would show up
as extra classifier calls. -/

/-- One `post_save` signal delivery for a `Feedback` row. -/
structure SignalEvent where
  created : Bool
  deriving Repr, DecidableEq

/-- The storage writes the signal handler can perform. -/
inductive DbWrite where
  /-- `Feedback.objects.filter(pk=...).update(sentiment=...)` -/
  | qsUpdateSentiment (sentiment : String)
  /-- `instance.save()` on an existing row (what the handler deliberately
  avoids; kept in the model so the machine distinguishes the two) -/
  | instanceSave
  deriving Repr, DecidableEq

/-- Which `post_save` events a storage write emits: a `save` on an existing
row fires `post_save` with `created=False`; a queryset update fires none. -/
def postSaveEventsOf : DbWrite → List SignalEvent
  | .qsUpdateSentiment _ => []
  | .instanceSave => [⟨false⟩]

/-- One invocation of `analyse_feedback_sentiment` on a delivered event:
returns (classifier calls, responder calls, storage writes performed).
The guard is `if created and instance.message:`. -/
def analyse_feedback_sentiment (classify : String → String) (message : String)
    (ev : SignalEvent) : Nat × Nat × List DbWrite :=
  if ev.created && !message.isEmpty then
    (1, 1, [.qsUpdateSentiment (classify message)])
  else
    (0, 0, [])

/-- Run the signal queue to quiescence (bounded by `fuel`), totalling the
classifier and responder calls. -/
def runSignals (classify : String → String) (message : String) :
    Nat → List SignalEvent → Nat × Nat
  | 0, _ => (0, 0)
  | _ + 1, [] => (0, 0)
  | fuel + 1, ev :: rest =>
    let (cls, rsp, writes) := analyse_feedback_sentiment classify message ev
    let newEvents := (writes.map postSaveEventsOf).flatten
    let (cls2, rsp2) := runSignals classify message fuel (rest ++ newEvents)
    (cls + cls2, rsp + rsp2)

/-- Creating a `Feedback` row (`feedback.save()` on a new instance) fires
exactly one `post_save` with `created=True`; this starts the reaction. -/
def createFeedbackAndReact (classify : String → String) (message : String)
    (fuel : Nat) : Nat × Nat :=
  runSignals classify message fuel [⟨true⟩]

/-! ## Response composition
(`CustomerNotificationManager.generate_response_message`) -/

/-- The Gemini helpers `generate_response_message` consults. -/
structure GeminiFns where
  /-- `generate_email_draft subject body` -/
  draft : String → String → String
  /-- `detect_language text` (already lower-cased by the helper) -/
  detect : String → String
  /-- `translate_text text target_language` -/
  translate : String → String → String

/-- The feedback fields `generate_response_message` reads: `sentiment` is
nullable until classification lands. -/
structure FeedbackView where
  message : String
  sentiment : Option String
  source : String
  deriving Repr, DecidableEq

/-- `response_map.get(feedback.sentiment, "Thank you for your feedback.")`. -/
def response_map_get : Option String → String
  | some "positive" => "Thank you for your positive feedback! We appreciate your support."
  | some "neutral" => "Thank you for your feedback. They are noted and will be taken into consideration."
  | some "negative" => "We\x27re sorry about your experience. A live agent is addressing the issue."
  | _ => "Thank you for your feedback."

/-- `CustomerNotificationManager.generate_response_message`: returns the
composed reply and the number of `generate_email_draft` invocations. -/
def generate_response_message (g : GeminiFns) (f : FeedbackView) :
    String × Nat :=
  let base := response_map_get f.sentiment
  let (response, draftCalls) :=
    if f.source != "sms" && f.sentiment == some "negative" then
      (g.draft "Addressing Your Concerns"
        ("Apologize and address the following feedback: " ++ f.message), 1)
    else (base, 0)
  let feedback_language := g.detect f.message
  let response :=
    if feedback_language != "english" then g.translate response feedback_language
    else response
  (response ++ "\nFeedback: " ++ f.message, draftCalls)

/-! ## Concrete fixtures used by witnesses and counterexamples -/

/-- A transport stub whose every call succeeds. -/
def tOk : Transports :=
  ⟨fun _ _ => .ok "SM1234567890", fun m => m, fun _ _ _ => (true, "NYLAS-MSG-1"),
   "00000000-0000-4000-8000-000000000000"⟩

/-- A transport stub whose email send is rejected. -/
def tFail : Transports :=
  ⟨fun _ _ => .ok "SM1234567890", fun m => m, fun _ _ _ => (false, ""),
   "11111111-1111-4111-8111-111111111111"⟩

/-- Customer with both phone and email set. -/
def cBoth : Customer :=
  ⟨1, some "15551234567", some "ann@example.com", "Ann", some "Lee", "hello"⟩

/-- Customer with only an email set. -/
def cEmailOnly : Customer :=
  ⟨7, none, some "ann@example.com", "Ann", some "Lee", "hello"⟩

/-- Customer with neither phone nor email (the model allows the state). -/
def cNoChannel : Customer := ⟨9, none, none, "Ann", some "Lee", "hello"⟩

/-- Customer with a null `last_name` (realizable from a three-column CSV
row; `last_name` is a nullable model field). -/
def cNullLast : Customer :=
  ⟨2, none, some "ann@example.com", "Ann", none, "Dear \x7b\x7blast_name\x7d\x7d"⟩

/-- Customer whose `first_name` value is itself a placeholder token (the
field has no content validator and the token fits in 50 characters) and
whose `phone_number` is the empty string. -/
def cTokenName : Customer :=
  ⟨3, some "", some "ann@example.com", "\x7b\x7bphone_number\x7d\x7d",
   some "Lee", "Hi \x7b\x7bfirst_name\x7d\x7d"⟩

/-- The table state after a first (failed) email dispatch to `cEmailOnly`. -/
def dbAfterFail : List MessageStatusRow := (send_message tFail cEmailOnly []).db

/-- Gemini stub used by the C9 counterexample and witness: the language
detector answers english, the translator is the identity, the draft
generator prepends a marker to its body prompt. -/
def gStub : GeminiFns :=
  ⟨fun _ b => "AI DRAFT: " ++ b, fun _ => "english", fun t _ => t⟩

/-- A negative SMS-sourced feedback. -/
def fbNegSms : FeedbackView := ⟨"Terrible service", some "negative", "sms"⟩

/-! ## Supporting lemmas -/

/-- Every successful `matchPlaceholderAt` step consumes at least one input
character (this is why the input length is enough fuel for the scan). -/
theorem matchPlaceholderAt_length {l tok r : List Char}
    (h : matchPlaceholderAt l = some (tok, r)) : r.length < l.length := by
  rw [matchPlaceholderAt.eq_def] at h
  split at h
  next rest =>
    simp only at h
    split at h
    · exact absurd h (by simp)
    · split at h
      next r4 heq =>
        have h1 : (rest.dropWhile isSpaceChar).length ≤ rest.length :=
          (List.dropWhile_suffix isSpaceChar).length_le
        have h2 : ((rest.dropWhile isSpaceChar).dropWhile isWordChar).length ≤
            (rest.dropWhile isSpaceChar).length :=
          (List.dropWhile_suffix isWordChar).length_le
        have h3 : (((rest.dropWhile isSpaceChar).dropWhile isWordChar).dropWhile
            isSpaceChar).length ≤
            ((rest.dropWhile isSpaceChar).dropWhile isWordChar).length :=
          (List.dropWhile_suffix isSpaceChar).length_le
        have h4 : r4.length + 2 ≤ rest.length := by
          have hlen := congrArg List.length heq
          simp only [List.length_cons] at hlen
          omega
        simp only [Option.some.injEq, Prod.mk.injEq] at h
        obtain ⟨-, rfl⟩ := h
        simp only [List.length_cons]
        omega
      · exact absurd h (by simp)
  next => exact absurd h (by simp)

/-! ## Claims -/

/-- Claim C1: dispatch selects the channel by the exact policy of
`send_message`: a customer with a (truthy) phone number goes down the SMS
branch and the email transport is never invoked, whatever the email field
holds (and the SMS transport is invoked whenever rendering succeeds); a
customer without a phone but with an email goes down the email branch and
the SMS transport is never invoked; a customer with neither contact field
hits the no-contact-channel failure and nothing is sent or written. -/
theorem c1_channel_selection (t : Transports) (c : Customer)
    (db : List MessageStatusRow) :
    (truthy c.phone_number = true →
      (send_message t c db).channel = Channel.sms ∧
      (send_message t c db).emailCalled = false ∧
      (∀ body, parse_message c.message c = .ok body →
        (send_message t c db).smsCalled = true)) ∧
    (truthy c.phone_number = false → truthy c.email = true →
      (send_message t c db).channel = Channel.email ∧
      (send_message t c db).smsCalled = false ∧
      (∀ body, parse_message c.message c = .ok body →
        (send_message t c db).emailCalled = true)) ∧
    (truthy c.phone_number = false → truthy c.email = false →
      (send_message t c db).channel = Channel.noContactChannel ∧
      (send_message t c db).smsCalled = false ∧
      (send_message t c db).emailCalled = false ∧
      (send_message t c db).db = db) := by
  refine ⟨fun hp => ?_, fun hp he => ?_, fun hp he => ?_⟩
  · simp only [send_message, hp, if_true]
    cases hparse : parse_message c.message c with
    | error e => simp [hparse]
    | ok body =>
      cases hsms : t.smsSend ("+" ++ (c.phone_number.getD "")) body with
      | error e => simp [hparse, hsms]
      | ok sid =>
        cases hcr : createMessageStatus ⟨c.id, sid, "queued"⟩ db with
        | error e => simp [hparse, hsms, hcr]
        | ok db2 => simp [hparse, hsms, hcr]
  · simp only [send_message, hp, he, Bool.false_eq_true, if_false, if_true]
    cases hparse : parse_message c.message c with
    | error e => simp [hparse]
    | ok body =>
      cases hmail : t.emailSend (c.email.getD "") (t.subjectGen c.message) body with
      | mk stat mid =>
        cases stat
        · cases hcr : createMessageStatus
              ⟨c.id, String.mk (t.uuid4.data.take 34), "failed"⟩ db with
          | error e => simp [hparse, hmail, hcr]
          | ok db2 => simp [hparse, hmail, hcr]
        · cases hcr : createMessageStatus ⟨c.id, mid, "delivered"⟩ db with
          | error e => simp [hparse, hmail, hcr]
          | ok db2 => simp [hparse, hmail, hcr]
  · simp [send_message, hp, he]

/-- Claim C1 witness: the policy evaluated at concrete customers. -/
theorem c1_channel_selection_witness :
    (send_message tOk cBoth []).channel = Channel.sms ∧
    (send_message tOk cBoth []).emailCalled = false ∧
    (send_message tOk cEmailOnly []).channel = Channel.email ∧
    (send_message tOk cNoChannel []).channel = Channel.noContactChannel := by
  have h1 := (c1_channel_selection tOk cBoth []).1 (by decide)
  have h2 := (c1_channel_selection tOk cEmailOnly []).2.1 (by decide) (by decide)
  have h3 := (c1_channel_selection tOk cNoChannel []).2.2 (by decide) (by decide)
  exact ⟨h1.1, h1.2.1, h2.1, h3.1⟩

/-- Claim C5 (code bug evidence): for an inbound SMS-webhook request whose
signature fails validation with development mode off, `TwilioWebhookView.post`
raises `UnboundLocalError` while formatting the rejection log (the local
variables `from_number`, `email`, `body` are read before assignment), so the
`403` return is unreachable and Django answers HTTP 500; no Feedback row is
created. -/
theorem c5_invalid_signature_raises (from_number body email : Option String)
    (customers : List Customer) (feedbacks : List FeedbackRow) :
    twilioPost false false from_number body email customers feedbacks
      = (feedbacks, HttpOutcome.raised PyError.unboundLocalError) := by
  simp [twilioPost]

/-- Claim C7: creating a Feedback row fires the post-save reaction once;
the classification lands through a queryset update, which emits no further
post-save signal, so the classifier and the responder each run exactly once
for the created row. -/
theorem c7_classify_once (classify : String → String) (message : String)
    (fuel : Nat) (hfuel : 1 ≤ fuel) (hmsg : message.isEmpty = false) :
    createFeedbackAndReact classify message fuel = (1, 1) := by
  cases fuel with
  | zero => omega
  | succ n =>
    simp only [createFeedbackAndReact, runSignals, analyse_feedback_sentiment,
      hmsg, Bool.not_false, Bool.and_true, if_true, postSaveEventsOf,
      List.map_cons, List.map_nil, List.flatten, List.nil_append, List.append_nil]
    cases n <;> simp [runSignals]

/-- Claim C7 witness: the reaction for the feedback text of the spec
scenario performs one classification and one response. -/
theorem c7_classify_once_witness :
    createFeedbackAndReact (fun _ => "positive") "This is great!" 3 = (1, 1) :=
  c7_classify_once (fun _ => "positive") "This is great!" 3 (by decide) (by decide)

/-- Claim C8: one run of the tracker queries the provider for exactly the
records whose status is non-terminal (in table order), and each final row is
a function of that row and its own fetch result alone, so one failing fetch
never aborts the processing of the other selected records. -/
theorem c8_tracker_selects_all_and_only (fetch : String → Except String String)
    (db : List MessageStatusRow) :
    (check_message_delivery_status fetch db).2
      = (db.filter (fun r => nonTerminalStatuses.contains r.status)).map
          (fun r => r.message_sid) ∧
    (check_message_delivery_status fetch db).1
      = db.map (fun r =>
          if nonTerminalStatuses.contains r.status then
            match fetch r.message_sid with
            | .ok s => { r with status := s }
            | .error _ => r
          else r) := by
  induction db with
  | nil => exact ⟨rfl, rfl⟩
  | cons a rest ih =>
    obtain ⟨ih1, ih2⟩ := ih
    simp only [check_message_delivery_status, List.filter_cons, List.map_cons]
    cases hsel : nonTerminalStatuses.contains a.status with
    | false => simp [hsel, ih1, ih2]
    | true =>
      cases hf : fetch a.message_sid with
      | ok s => simp [hsel, hf, ih1, ih2]
      | error e => simp [hsel, hf, ih1, ih2]

/-- Claim C10: a POST to the Nylas webhook with no `X-Nylas-Signature`
header reaches `hmac.compare_digest` with `None`, the `TypeError` is caught
by the generic handler and answered with HTTP 500 (not the 403 used for a
present-but-wrong signature), and no Feedback row is created. -/
theorem c10_missing_signature_500 (hmacHex : String → String → String)
    (secret_key rawBody : String) (parseJson : String → Option NylasEvent)
    (fetchBody : String → Except String String)
    (msDb : List MessageStatusRow) (feedbacks : List FeedbackRow) :
    nylasPost hmacHex secret_key none rawBody parseJson fetchBody msDb feedbacks
      = (feedbacks, HttpOutcome.resp 500) ∧
    (∀ s, (s == hmacHex secret_key rawBody) = false →
      nylasPost hmacHex secret_key (some s) rawBody parseJson fetchBody msDb
        feedbacks = (feedbacks, HttpOutcome.resp 403)) := by
  constructor
  · simp [nylasPost, validate_signature]
  · intro s hs
    simp [nylasPost, validate_signature, hs]

/-- Claim C10 witness: concrete stub HMAC and a header-less request. -/
theorem c10_missing_signature_500_witness :
    nylasPost (fun _ _ => "deadbeef") "secret" none "\x7b\x7d"
        (fun _ => none) (fun _ => .error "offline") [] []
      = ([], HttpOutcome.resp 500) ∧
    nylasPost (fun _ _ => "deadbeef") "secret" (some "wrong") "\x7b\x7d"
        (fun _ => none) (fun _ => .error "offline") [] []
      = ([], HttpOutcome.resp 403) := by
  have h := c10_missing_signature_500 (fun _ _ => "deadbeef") "secret" "\x7b\x7d"
    (fun _ => none) (fun _ => .error "offline") [] []
  exact ⟨h.1, h.2 "wrong" (by decide)⟩

/-- Rendering never faults while every header it looks up has a non-null
field value. -/
theorem parseSteps_isOk (c : Customer) (hs : List String) (parsed : String)
    (hfields : ∀ h ∈ hs, getattrField c h ≠ none) :
    (parseSteps c hs parsed).isOk = true := by
  induction hs generalizing parsed with
  | nil => rfl
  | cons hd tl ih =>
    simp only [parseSteps]
    split
    · cases hgf : getattrField c hd with
      | none => exact absurd hgf (hfields hd (by simp))
      | some v =>
        simp only [hgf]
        exact ih _ (fun h hm => hfields h (by simp [hm]))
    · exact ih _ (fun h hm => hfields h (by simp [hm]))

/-- Claim C2 counterexample: two validated templates on which the claim
fails.  (1) `"Dear {\x7b{\x7blast_name}\x7d}\x7d"` passes template-creation
validation, yet rendering it for a customer whose `last_name` is null
raises `TypeError` — `str.replace` receives `None`, the `getattr` default
`""` never applies to a model field — instead of substituting the empty
string.  (2) `"Hi {\x7b{\x7bfirst_name}\x7d}\x7d"` also validates, yet for
a customer whose `first_name` value is the literal token
`{\x7b{\x7bphone_number}\x7d}\x7d` the rendered output retains that literal
recognized-placeholder token, because substituted text is processed for
earlier headers only. -/
theorem c2_render_counterexample :
    validate_and_sanitize_message_format "Dear \x7b\x7blast_name\x7d\x7d"
      = some "Dear \x7b\x7blast_name\x7d\x7d" ∧
    parse_message "Dear \x7b\x7blast_name\x7d\x7d" cNullLast
      = Except.error PyError.typeError ∧
    validate_and_sanitize_message_format "Hi \x7b\x7bfirst_name\x7d\x7d"
      = some "Hi \x7b\x7bfirst_name\x7d\x7d" ∧
    parse_message "Hi \x7b\x7bfirst_name\x7d\x7d" cTokenName
      = Except.ok "Hi \x7b\x7bphone_number\x7d\x7d" ∧
    pyContains "Hi \x7b\x7bphone_number\x7d\x7d"
      (placeholderOf "phone_number") = true := by
  refine ⟨by decide, by decide, by decide, by decide, by decide⟩

/-- Claim C2 (amended): for every template that passed template-creation
validation and every customer all of whose recognized fields are non-null
strings, rendering returns without a runtime fault (an empty-string field
substitutes the empty string); when a placeholder-backed field is null and
its placeholder occurs, rendering raises `TypeError` instead, and
substituted values are not rescanned, so placeholder tokens arriving
through field values can survive in the output (see the counterexample). -/
theorem c2_render_total_on_nonnull (fmt s : String) (c : Customer)
    (hval : validate_and_sanitize_message_format fmt = some s)
    (hp : c.phone_number ≠ none) (he : c.email ≠ none)
    (hl : c.last_name ≠ none) :
    (parse_message s c).isOk = true := by
  have _ := hval
  refine parseSteps_isOk c CSV_REQUIRED_HEADERS s (fun h hm => ?_)
  simp only [CSV_REQUIRED_HEADERS, List.mem_cons, List.not_mem_nil,
    or_false] at hm
  rcases hm with rfl | rfl | rfl | rfl
  · simpa [getattrField] using hp
  · simpa [getattrField] using he
  · simp [getattrField]
  · simpa [getattrField] using hl

/-- Claim C2 witness: the amended statement evaluated on a concrete
validated template and a customer with all fields set. -/
theorem c2_render_total_on_nonnull_witness :
    (parse_message "Hi \x7b\x7bfirst_name\x7d\x7d" cBoth).isOk = true :=
  c2_render_total_on_nonnull "Hi \x7b\x7bfirst_name\x7d\x7d"
    "Hi \x7b\x7bfirst_name\x7d\x7d" cBoth (by decide) (by decide) (by decide)
    (by decide)

/-- In a table whose `message_sid` column is duplicate-free (the column has
`unique=True`), looking a member row up by its own sid finds exactly it. -/
theorem find_by_unique_sid {row : MessageStatusRow} {db : List MessageStatusRow}
    (hnodup : (db.map (fun r => r.message_sid)).Nodup) (hmem : row ∈ db) :
    db.find? (fun r => r.message_sid == row.message_sid) = some row := by
  induction db with
  | nil => cases hmem
  | cons a rest ih =>
    simp only [List.map_cons, List.nodup_cons] at hnodup
    rcases List.mem_cons.mp hmem with rfl | hmem2
    · simp [List.find?_cons]
    · have hbeq : (a.message_sid == row.message_sid) = false := by
        simp only [beq_eq_false_iff_ne, ne_eq]
        intro hEq
        exact hnodup.1 (hEq ▸ List.mem_map_of_mem _ hmem2)
      simp only [List.find?_cons, hbeq]
      exact ih hnodup.2 hmem2

/-- Claim C6: when a thread-reply event references root message id `X`,
the delivery record retrieved is exactly the record whose provider id is
`X` (the sid column is unique), and a Feedback row for that record is
created once the reply body is fetched; when no record has provider id
`X`, the event is discarded and no Feedback row is created. -/
theorem c6_thread_reply_roundtrip (fetchBody : String → Except String String)
    (ev : NylasEvent) (msDb : List MessageStatusRow)
    (feedbacks : List FeedbackRow)
    (hnodup : (msDb.map (fun r => r.message_sid)).Nodup) :
    (∀ row ∈ msDb, row.message_sid = ev.root_message_id →
      ∀ bodyText, fetchBody ev.reply_message_id = .ok bodyText →
        handle_thread_replied fetchBody ev msDb feedbacks
          = feedbacks ++ [⟨row.customer, some bodyText, "email"⟩]) ∧
    ((∀ row ∈ msDb, row.message_sid ≠ ev.root_message_id) →
      handle_thread_replied fetchBody ev msDb feedbacks = feedbacks) := by
  constructor
  · intro row hmem hsid bodyText hfetch
    have hfind : msDb.find? (fun r => r.message_sid == ev.root_message_id)
        = some row := by
      have := find_by_unique_sid hnodup hmem
      rwa [hsid] at this
    simp [handle_thread_replied, hfind, hfetch]
  · intro hnone
    have hfind : msDb.find? (fun r => r.message_sid == ev.root_message_id)
        = none := by
      apply List.find?_eq_none.mpr
      intro r hr
      simpa using hnone r hr
    simp [handle_thread_replied, hfind]

/-- Claim C6 witness: a two-row table; the reply referencing `"SIDA"`
attaches feedback to the matching customer, and a reply referencing an
unknown id creates nothing. -/
theorem c6_thread_reply_roundtrip_witness :
    handle_thread_replied (fun _ => .ok "Thanks!") ⟨some "thread.replied", "R1", "SIDA"⟩
        [⟨1, "SIDA", "delivered"⟩, ⟨2, "SIDB", "delivered"⟩] []
      = [⟨1, some "Thanks!", "email"⟩] ∧
    handle_thread_replied (fun _ => .ok "Thanks!") ⟨some "thread.replied", "R1", "SIDZ"⟩
        [⟨1, "SIDA", "delivered"⟩, ⟨2, "SIDB", "delivered"⟩] []
      = [] := by
  have h1 := (c6_thread_reply_roundtrip (fun _ => .ok "Thanks!")
    ⟨some "thread.replied", "R1", "SIDA"⟩
    [⟨1, "SIDA", "delivered"⟩, ⟨2, "SIDB", "delivered"⟩] [] (by decide)).1
    ⟨1, "SIDA", "delivered"⟩ (by decide) (by decide) "Thanks!" rfl
  have h2 := (c6_thread_reply_roundtrip (fun _ => .ok "Thanks!")
    ⟨some "thread.replied", "R1", "SIDZ"⟩
    [⟨1, "SIDA", "delivered"⟩, ⟨2, "SIDB", "delivered"⟩] [] (by decide)).2
    (by decide)
  exact ⟨h1, h2⟩

/-- Claim C3 counterexample: `MessageStatus.customer` is a one-to-one
field, so after a failed email dispatch has created a `failed` record,
re-invoking dispatch for the same customer does not create a new record:
the insert raises `IntegrityError` and the table is left unchanged. -/
theorem c3_redispatch_counterexample :
    (send_message tFail cEmailOnly []).db
      = [⟨7, "11111111-1111-4111-8111-1111111111", "failed"⟩] ∧
    (send_message tFail cEmailOnly dbAfterFail).outcome
      = Outcome.raised PyError.integrityError ∧
    (send_message tFail cEmailOnly dbAfterFail).db = dbAfterFail := by
  refine ⟨by decide, by decide, by decide⟩

/-- Claim C3 (amended): an email-branch dispatch that reaches a transport
outcome creates exactly one `MessageStatus` row — provided the customer has
no existing row and the message id is unused; because of the one-to-one
constraint on `MessageStatus.customer`, a re-invocation for a customer who
already has a row (for example after a prior failure) raises
`IntegrityError` instead, creating no new row and mutating nothing. -/
theorem c3_dispatch_record_creation (t : Transports) (c : Customer)
    (db : List MessageStatusRow) (body : String)
    (hpn : truthy c.phone_number = false) (hem : truthy c.email = true)
    (hparse : parse_message c.message c = .ok body) :
    ((db.any (fun r => r.customer == c.id)) = true →
      (send_message t c db).db = db ∧
      (send_message t c db).outcome = Outcome.raised PyError.integrityError) ∧
    ((db.any (fun r => r.customer == c.id)) = false →
      (db.any (fun r => r.message_sid ==
        (t.emailSend (c.email.getD "") (t.subjectGen c.message) body).2)) = false →
      (db.any (fun r => r.message_sid ==
        String.mk (t.uuid4.data.take 34))) = false →
      ∃ row, (send_message t c db).db = db ++ [row] ∧ row.customer = c.id) := by
  simp only [send_message, hpn, Bool.false_eq_true, if_false, hem, if_true,
    hparse]
  cases hmail : t.emailSend (c.email.getD "") (t.subjectGen c.message) body with
  | mk stat mid =>
    constructor
    · intro hcust
      cases stat <;>
        simp [createMessageStatus, hcust]
    · intro hcust hs1 hs2
      have hs1m : (db.any (fun r => r.message_sid == mid)) = false := hs1
      cases stat
      · exact ⟨⟨c.id, String.mk (t.uuid4.data.take 34), "failed"⟩,
          by simp [createMessageStatus, hcust, hs2], rfl⟩
      · exact ⟨⟨c.id, mid, "delivered"⟩,
          by simp [createMessageStatus, hcust, hs1m], rfl⟩

/-- Claim C3 witness: the amended statement at concrete inputs — a fresh
customer gets exactly one appended row, and the same dispatch against a
table already holding a row for that customer raises `IntegrityError`. -/
theorem c3_dispatch_record_creation_witness :
    ((send_message tFail cEmailOnly dbAfterFail).db = dbAfterFail ∧
      (send_message tFail cEmailOnly dbAfterFail).outcome
        = Outcome.raised PyError.integrityError) ∧
    (∃ row, (send_message tFail cEmailOnly []).db = [] ++ [row] ∧
      row.customer = cEmailOnly.id) := by
  have h1 := (c3_dispatch_record_creation tFail cEmailOnly dbAfterFail "hello"
    (by decide) (by decide) (by decide)).1 (by decide)
  have h2 := (c3_dispatch_record_creation tFail cEmailOnly [] "hello"
    (by decide) (by decide) (by decide)).2 (by decide) (by decide) (by decide)
  exact ⟨h1, h2⟩

/-- Claim C4 counterexample: a failed email dispatch is not always left
with a `failed` DeliveryRecord.  For a customer who already has a
`MessageStatus` row (here: from a prior failed attempt), a new dispatch
whose transport send is rejected hits the one-to-one constraint on
`MessageStatus.customer`: the create raises `IntegrityError`, the table is
unchanged, and no record with the generated placeholder id exists — this
failed dispatch created no DeliveryRecord at all. -/
theorem c4_redispatch_failure_counterexample :
    (send_message tFail cEmailOnly [⟨7, "OLD-FAILED-SID", "failed"⟩]).outcome
      = Outcome.raised PyError.integrityError ∧
    (send_message tFail cEmailOnly [⟨7, "OLD-FAILED-SID", "failed"⟩]).db
      = [⟨7, "OLD-FAILED-SID", "failed"⟩] ∧
    ((send_message tFail cEmailOnly [⟨7, "OLD-FAILED-SID", "failed"⟩]).db.any
      (fun r => r.message_sid == String.mk (tFail.uuid4.data.take 34)))
      = false := by
  refine ⟨by decide, by decide, by decide⟩

/-- Claim C4 (amended): an email dispatch whose transport send is rejected
creates a `MessageStatus` row with status `failed` and the generated
placeholder id `str(uuid.uuid4())[:34]` — at most 34 characters — provided
the customer has no existing `MessageStatus` row and the generated id is
unused; when the customer already has a row, the create instead raises
`IntegrityError` and no record is created (see the counterexample). -/
theorem c4_failed_email_creates_failed_record (t : Transports) (c : Customer)
    (db : List MessageStatusRow) (body : String)
    (hpn : truthy c.phone_number = false) (hem : truthy c.email = true)
    (hparse : parse_message c.message c = .ok body)
    (hfail : (t.emailSend (c.email.getD "") (t.subjectGen c.message) body).1
      = false)
    (hfresh : (db.any (fun r => r.customer == c.id)) = false)
    (hsid : (db.any (fun r => r.message_sid ==
      String.mk (t.uuid4.data.take 34))) = false) :
    (send_message t c db).db
      = db ++ [⟨c.id, String.mk (t.uuid4.data.take 34), "failed"⟩] ∧
    (String.mk (t.uuid4.data.take 34)).length ≤ 34 ∧
    (send_message t c db).outcome = Outcome.completed := by
  have hlen : (String.mk (t.uuid4.data.take 34)).length ≤ 34 := by
    show (t.uuid4.data.take 34).length ≤ 34
    rw [List.length_take]
    exact min_le_left _ _
  have hmain : (send_message t c db).db
      = db ++ [⟨c.id, String.mk (t.uuid4.data.take 34), "failed"⟩] ∧
      (send_message t c db).outcome = Outcome.completed := by
    simp only [send_message, hpn, Bool.false_eq_true, if_false, hem, if_true,
      hparse]
    cases hmail : t.emailSend (c.email.getD "") (t.subjectGen c.message) body with
    | mk stat mid =>
      rw [hmail] at hfail
      have hstat : stat = false := hfail
      subst hstat
      simp [createMessageStatus, hfresh, hsid]
  exact ⟨hmain.1, hlen, hmain.2⟩

/-- Claim C4 witness: the rejected-transport dispatch evaluated on the
concrete fixtures — one `failed` row with a 34-character placeholder id. -/
theorem c4_failed_email_creates_failed_record_witness :
    (send_message tFail cEmailOnly []).db
      = [] ++ [⟨cEmailOnly.id, String.mk (tFail.uuid4.data.take 34), "failed"⟩] ∧
    (String.mk (tFail.uuid4.data.take 34)).length ≤ 34 := by
  have h := c4_failed_email_creates_failed_record tFail cEmailOnly [] "hello"
    (by decide) (by decide) (by decide) (by decide) (by decide) (by decide)
  exact ⟨h.1, h.2.1⟩

/-- Claim C9 counterexample: for a negative SMS feedback the composed
reply is not the fixed apology text — the code appends
`"\nFeedback: " + feedback.message` to every reply — though indeed no
AI drafting happens on the SMS path. -/
theorem c9_reply_counterexample :
    (generate_response_message gStub fbNegSms).1
      ≠ "We\x27re sorry about your experience. A live agent is addressing the issue." ∧
    (generate_response_message gStub fbNegSms).1
      = "We\x27re sorry about your experience. A live agent is addressing the issue.\nFeedback: Terrible service" ∧
    (generate_response_message gStub fbNegSms).2 = 0 := by
  refine ⟨by decide, by decide, by decide⟩

/-- Claim C9 (amended): for a classified negative feedback, an SMS source
yields the fixed apology text with no AI drafting and an email source
yields an AI-generated apology draft whose prompt references the feedback
text — in both cases the code then appends `"\nFeedback: " + message` and
translates the reply when the detected language is not english. -/
theorem c9_negative_reply_policy (g : GeminiFns) (f : FeedbackView)
    (hneg : f.sentiment = some "negative") :
    (f.source = "sms" →
      (generate_response_message g f).2 = 0 ∧
      (generate_response_message g f).1 =
        (if g.detect f.message != "english" then
          g.translate
            "We\x27re sorry about your experience. A live agent is addressing the issue."
            (g.detect f.message)
         else
          "We\x27re sorry about your experience. A live agent is addressing the issue.")
        ++ "\nFeedback: " ++ f.message) ∧
    (f.source = "email" →
      (generate_response_message g f).2 = 1 ∧
      (generate_response_message g f).1 =
        (if g.detect f.message != "english" then
          g.translate
            (g.draft "Addressing Your Concerns"
              ("Apologize and address the following feedback: " ++ f.message))
            (g.detect f.message)
         else
          g.draft "Addressing Your Concerns"
            ("Apologize and address the following feedback: " ++ f.message))
        ++ "\nFeedback: " ++ f.message) := by
  constructor
  · intro hsrc
    simp [generate_response_message, response_map_get, hneg, hsrc]
  · intro hsrc
    simp [generate_response_message, response_map_get, hneg, hsrc]

/-- Claim C9 witness: the amended policy at concrete feedbacks — the SMS
reply carries the fixed apology and no draft call, the email reply carries
the AI draft referencing the feedback text. -/
theorem c9_negative_reply_policy_witness :
    ((generate_response_message gStub fbNegSms).2 = 0 ∧
      (generate_response_message gStub fbNegSms).1
        = "We\x27re sorry about your experience. A live agent is addressing the issue.\nFeedback: Terrible service") ∧
    ((generate_response_message gStub ⟨"Terrible service", some "negative", "email"⟩).2 = 1 ∧
      (generate_response_message gStub ⟨"Terrible service", some "negative", "email"⟩).1
        = "AI DRAFT: Apologize and address the following feedback: Terrible service\nFeedback: Terrible service") := by
  have h1 := (c9_negative_reply_policy gStub fbNegSms rfl).1 rfl
  have h2 := (c9_negative_reply_policy gStub
    ⟨"Terrible service", some "negative", "email"⟩ rfl).2 rfl
  refine ⟨⟨h1.1, ?_⟩, ⟨h2.1, ?_⟩⟩
  · rw [h1.2]; decide
  · rw [h2.2]; decide

end Telinga
